import Mathlib

/-!
# Verification of the `rustex` build-orchestrator against its specification

Shallow embedding of the repository's core code:

* `src/src/outparse/src/lib.rs` — the streaming LaTeX-log parser
  (regular-expression classifiers `ERROR`, `WARNING`, `INFO`, `BADBOX`,
  the per-line dispatcher `LogParser::parse_line`, the message builders
  `process_generic` / `process_badbox` / `process_error`, the line loop
  `LogParser::parse`, and the public entry point `parse_log`);
* `src/src/outparse/src/report.rs` — `MessageInfo`, `Message`, `BuildReport`;
* `src/src/jobs.rs` — `JobStatus`, `Job`, `Job::poll` and its helpers,
  `Job::cleanup`;
* `src/src/runner.rs` — `Runner::process_submissions`, `Runner::kill`,
  `Runner::build_report`;
* `src/src/report.rs` — `RunnerReport`.

The four recognition regexes are embedded as hand-written deterministic
matchers over `List Char`.  Each matcher follows the regex literally,
including the leftmost-first preference of alternations and the greedy
semantics of optional groups; wherever the regex engine could in principle
backtrack (the optional `(?: (\w+))?` component group and the optional
`(?: \(([\\]?\w+)\))?` extra group), the continuation of the pattern starts
with a character that can never occur inside a `\w+` run, so the maximal-run
match tried here is the only candidate the engine could accept, and the
fallback of skipping the optional group is tried exactly when taking it
fails — the same order the regex engine uses.

External effects (process spawning, `try_wait`, the filesystem) are
represented by explicit oracle values supplied to the embedded functions;
`panic!`/`unwrap` failures are represented by explicit `panicked` outcomes.
-/

namespace Rustex

/-! ## Character classes used by the regexes (`\w`, `\d`) -/

/-- Regex `\w` (ASCII range; all inputs in this development are ASCII). -/
def isWordChar (c : Char) : Bool := c.isAlphanum || c == '_'

/-- Regex `\d`. -/
def isDigitChar (c : Char) : Bool := c.isDigit

/-- Match a literal sequence of characters, returning the remainder. -/
def dropLit : List Char → List Char → Option (List Char)
  | [], cs => some cs
  | _ :: _, [] => none
  | l :: ls, c :: cs => if c == l then dropLit ls cs else none

/-- Maximal run of characters satisfying `p` (greedy `p*`). -/
def takeRun (p : Char → Bool) : List Char → List Char × List Char
  | [] => ([], [])
  | c :: cs =>
    if p c then
      let r := takeRun p cs
      (c :: r.1, r.2)
    else ([], c :: cs)

/-- Greedy `p+`: maximal nonempty run of characters satisfying `p`. -/
def takeRun1 (p : Char → Bool) (cs : List Char) : Option (List Char × List Char) :=
  match takeRun p cs with
  | ([], _) => none
  | (w, r) => some (w, r)

/-! ## Details maps

`MessageInfo.details` is a Rust `HashMap<String, String>`; it is embedded as
an association list in insertion order, with `HashMap::insert` overwrite
semantics.  None of the claims depends on iteration order, only on lookups
and on the set of keys present. -/

/-- Association-list embedding of the `details` hash map. -/
def Details := List (String × String)

instance : DecidableEq Details := by
  unfold Details
  infer_instance

/-- `HashMap::insert`: overwrite the key if present, otherwise append. -/
def insertD (d : Details) (k v : String) : Details :=
  match d with
  | [] => [(k, v)]
  | (k', v') :: rest =>
    if k' = k then (k, v) :: rest else (k', v') :: insertD rest k v

/-- `HashMap::get`. -/
def lookupD (d : Details) (k : String) : Option String :=
  match d with
  | [] => none
  | (k', v) :: rest => if k' = k then some v else lookupD rest k

/-- `HashMap::contains_key`. -/
def containsD (d : Details) (k : String) : Bool :=
  match d with
  | [] => false
  | (k', _) :: rest => k' = k || containsD rest k

/-! ## `outparse::report` data model (src/src/outparse/src/report.rs) -/

/-- `MessageInfo` from src/src/outparse/src/report.rs. -/
structure MessageInfo where
  full : String
  details : Details
  context_lines : List String
deriving DecidableEq

/-- `Message` from src/src/outparse/src/report.rs. -/
inductive Message where
  | error (i : MessageInfo)
  | warning (i : MessageInfo)
  | badbox (i : MessageInfo)
  | info (i : MessageInfo)
deriving DecidableEq

/-- `MessageInfo::get_component_name`. -/
def MessageInfo.componentName (i : MessageInfo) : Option String :=
  if containsD i.details "component" then lookupD i.details "component"
  else if containsD i.details "package" then lookupD i.details "package"
  else if containsD i.details "class" then lookupD i.details "class"
  else none

/-- `MessageInfo::extend_message`: push onto the `message` detail if present,
otherwise insert it. -/
def MessageInfo.extendMessage (i : MessageInfo) (msg : String) : MessageInfo :=
  { i with
    details :=
      if containsD i.details "message" then
        i.details.map (fun p => if p.1 = "message" then (p.1, p.2 ++ msg) else p)
      else insertD i.details "message" msg }

/-- `MessageInfo::add_context`. -/
def MessageInfo.addContext (i : MessageInfo) (line : String) : MessageInfo :=
  { i with context_lines := i.context_lines ++ [line] }

/-- `Message::get_component_name`: `Badbox` always answers `None`. -/
def Message.componentName : Message → Option String
  | .error i => i.componentName
  | .warning i => i.componentName
  | .info i => i.componentName
  | .badbox _ => none

/-- `Message::extend_message`: no-op on `Badbox`. -/
def Message.extendMessage : Message → String → Message
  | .error i, m => .error (i.extendMessage m)
  | .warning i, m => .warning (i.extendMessage m)
  | .info i, m => .info (i.extendMessage m)
  | .badbox i, _ => .badbox i

/-- `Message::add_context`. -/
def Message.addContext : Message → String → Message
  | .error i, l => .error (i.addContext l)
  | .warning i, l => .warning (i.addContext l)
  | .info i, l => .info (i.addContext l)
  | .badbox i, l => .badbox (i.addContext l)

/-- `BuildReport` from src/src/outparse/src/report.rs.

The `missing_references` field is read by `Job::check_build_log` in
src/src/jobs.rs but is absent from the `BuildReport` struct definition under
src/src/outparse/src/report.rs (the crate versions in the repository are out
of sync).  Modelled from the spec: the count of unresolved-forward-reference
diagnostics, zero on a freshly created report; no parser code in
src/src/outparse ever modifies it. -/
structure BuildReport where
  errors : Nat
  warnings : Nat
  badboxes : Nat
  info : Nat
  messages : List Message
  missing_references : Nat
deriving DecidableEq

/-- `BuildReport::new`. -/
def BuildReport.new : BuildReport :=
  { errors := 0, warnings := 0, badboxes := 0, info := 0,
    messages := [], missing_references := 0 }

/-! ## The recognition regexes (src/src/outparse/src/lib.rs, lines 14-30)

```
ERROR:   ^(?:! ((?:La|pdf)TeX|Package|Class)(?: (\w+))? [eE]rror(?: \(([\\]?\w+)\))?: (.*)|! (.*))
WARNING: ^((?:La|pdf)TeX|Package|Class)(?: (\w+))? [wW]arning(?: \(([\\]?\w+)\))?: (.*)
INFO:    ^((?:La|pdf)TeX|Package|Class)(?: (\w+))? [iI]nfo(?: \(([\\]?\w+)\))?: (.*)
BADBOX:  ^(Over|Under)full \\([hv])box \((?:badness (\d+)|(\d+(?:\.\d+)?pt) too \w+)\)
          (?:(?:(?:in paragraph|in alignment|detected)
               (?:at lines (\d+)--(\d+)|at line (\d+)))
            |(?:has occurred while [\\]output is active [\[][\]]))
```
-/

/-- Alternation `((?:La|pdf)TeX|Package|Class)` (capture group 1 of the three
generic regexes); the four literals share no prefixes, so the leftmost-first
order cannot matter. -/
def matchTag (cs : List Char) : Option (String × List Char) :=
  match dropLit "LaTeX".toList cs with
  | some r => some ("LaTeX", r)
  | none =>
    match dropLit "pdfTeX".toList cs with
    | some r => some ("pdfTeX", r)
    | none =>
      match dropLit "Package".toList cs with
      | some r => some ("Package", r)
      | none =>
        match dropLit "Class".toList cs with
        | some r => some ("Class", r)
        | none => none

/-- ` [kK]eyword`: a space, then the keyword with its first letter in either
case (e.g. `[eE]rror` with `lo='e'`, `hi='E'`, `kwRest="rror"`). -/
def matchKw (lo hi : Char) (kwRest : String) (cs : List Char) : Option (List Char) :=
  match cs with
  | [] => none
  | c :: cs' =>
    if c == lo || c == hi then dropLit kwRest.toList cs' else none

/-- `(?: \(([\\]?\w+)\))?: (.*)` — the optional parenthesised `extra` group
followed by the colon, space, and message capture.  The optional group is
preferred (taken when its whole continuation matches), exactly as the regex
engine's greedy `?` behaves; inside it the optional backslash of `[\\]?\w+`
is consumed when present (a backslash is not a `\w` character, so leaving it
for `\w+` can never succeed). -/
def matchExtraColonMsg (cs : List Char) : Option (Option String × String) :=
  let noExtra : Option (Option String × String) :=
    match dropLit ": ".toList cs with
    | some msg => some (none, String.mk msg)
    | none => none
  let body (pre : List Char) (r : List Char) : Option (Option String × String) :=
    match takeRun1 isWordChar r with
    | none => none
    | some (w, r2) =>
      match r2 with
      | ')' :: r3 =>
        (match dropLit ": ".toList r3 with
         | some msg => some (some (String.mk (pre ++ w)), String.mk msg)
         | none => none)
      | _ => none
  match dropLit " (".toList cs with
  | none => noExtra
  | some r =>
    match r with
    | '\\' :: r2 =>
      (match body ['\\'] r2 with
       | some x => some x
       | none => noExtra)
    | _ =>
      (match body [] r with
       | some x => some x
       | none => noExtra)

/-- Capture groups of the generic (`INFO`/`WARNING`/typed-`ERROR`) pattern. -/
structure GenCaps where
  typeTag : String
  component : Option String
  extra : Option String
  message : String
deriving DecidableEq

/-- `(?: (\w+))? [kK]eyword(?: \(([\\]?\w+)\))?: (.*)` — everything after the
type tag.  The optional component group is tried first with the maximal
`\w+` run (the continuation begins with a space, which `\w` never matches,
so no shorter run could let the continuation succeed); when that fails, the
group is skipped — the same fallback order as the regex engine. -/
def afterTag (lo hi : Char) (kwRest : String) (cs : List Char) : Option GenCaps :=
  let finish (comp : Option String) (cs2 : List Char) : Option GenCaps :=
    match cs2 with
    | ' ' :: cs3 =>
      (match matchKw lo hi kwRest cs3 with
       | some cs4 =>
         (match matchExtraColonMsg cs4 with
          | some (extra, msg) => some { typeTag := "", component := comp, extra, message := msg }
          | none => none)
       | none => none)
    | _ => none
  match cs with
  | ' ' :: cs2 =>
    (match takeRun1 isWordChar cs2 with
     | some (w, cs3) =>
       (match finish (some (String.mk w)) cs3 with
        | some g => some g
        | none => finish none cs)
     | none => finish none cs)
  | _ => finish none cs

/-- The `WARNING` regex applied at the start of a line. -/
def matchWarningLine (cs : List Char) : Option GenCaps :=
  match matchTag cs with
  | some (tag, r) =>
    (match afterTag 'w' 'W' "arning" r with
     | some g => some { g with typeTag := tag }
     | none => none)
  | none => none

/-- The `INFO` regex applied at the start of a line. -/
def matchInfoLine (cs : List Char) : Option GenCaps :=
  match matchTag cs with
  | some (tag, r) =>
    (match afterTag 'i' 'I' "nfo" r with
     | some g => some { g with typeTag := tag }
     | none => none)
  | none => none

/-- The `ERROR` regex applied at the start of a line: the typed branch
(groups 1-4) is tried first; when it fails, the bare branch `! (.*)`
(group 5) matches the remainder of the line. -/
def matchErrorLine (cs : List Char) : Option (GenCaps ⊕ String) :=
  match dropLit "! ".toList cs with
  | none => none
  | some r =>
    match matchTag r with
    | some (tag, r2) =>
      (match afterTag 'e' 'E' "rror" r2 with
       | some g => some (.inl { g with typeTag := tag })
       | none => some (.inr (String.mk r)))
    | none => some (.inr (String.mk r))

/-- Capture groups 1-7 of the `BADBOX` regex.  Groups 3 and 4 are the two
arms of the amount alternation; groups 5/6 and 7 are the two arms of the
located forms (both empty for the `has occurred while \output is active []`
form). -/
structure BadboxCaps where
  boxType : String
  direction : String
  badness : Option String
  overBy : Option String
  startLine : Option String
  endLine : Option String
  singleLine : Option String
deriving DecidableEq

/-- Second arm of the `BADBOX` location alternation:
the literal `has occurred while [\\]output is active [\[][\]]`. -/
def badboxOccurredArm (cs : List Char) :
    Option ((Option String × Option String × Option String) × List Char) :=
  match dropLit "has occurred while \\output is active []".toList cs with
  | some r => some ((none, none, none), r)
  | none => none

/-- Location part of the `BADBOX` regex:
`(?:(?:in paragraph|in alignment|detected) (?:at lines (\d+)--(\d+)|at line (\d+)))`
or the literal `has occurred while \output is active []`.  Returns the line
captures (groups 5, 6, 7) and the remainder after the match.  The three
intro literals are mutually exclusive on any given text, so falling through
to the second arm after a failed intro-plus-tail attempt is exactly the
regex engine's backtracking order. -/
def matchBadboxLocation (cs : List Char) :
    Option ((Option String × Option String × Option String) × List Char) :=
  let afterIntro (r : List Char) :
      Option ((Option String × Option String × Option String) × List Char) :=
    match dropLit " at lines ".toList r with
    | some r2 =>
      (match takeRun1 isDigitChar r2 with
       | some (s, r3) =>
         (match dropLit "--".toList r3 with
          | some r4 =>
            (match takeRun1 isDigitChar r4 with
             | some (e, r5) =>
               some ((some (String.mk s), some (String.mk e), none), r5)
             | none => none)
          | none => none)
       | none => none)
    | none =>
      match dropLit " at line ".toList r with
      | some r2 =>
        (match takeRun1 isDigitChar r2 with
         | some (l, r3) => some ((none, none, some (String.mk l)), r3)
         | none => none)
      | none => none
  match dropLit "in paragraph".toList cs with
  | some r =>
    (match afterIntro r with
     | some x => some x
     | none => badboxOccurredArm cs)
  | none =>
    match dropLit "in alignment".toList cs with
    | some r =>
      (match afterIntro r with
       | some x => some x
       | none => badboxOccurredArm cs)
    | none =>
      match dropLit "detected".toList cs with
      | some r =>
        (match afterIntro r with
         | some x => some x
         | none => badboxOccurredArm cs)
      | none => badboxOccurredArm cs

/-- The `BADBOX` regex applied at the start of a line.  Unlike the generic
regexes, its match need not span the whole line, so the remainder after the
match is returned as well (group 0 is the consumed prefix). -/
def matchBadboxLine (cs : List Char) : Option (BadboxCaps × List Char) :=
  let typed : Option (String × List Char) :=
    match dropLit "Over".toList cs with
    | some r => some ("Over", r)
    | none =>
      match dropLit "Under".toList cs with
      | some r => some ("Under", r)
      | none => none
  match typed with
  | none => none
  | some (ty, r1) =>
    match dropLit "full \\".toList r1 with
    | none => none
    | some r2 =>
      match r2 with
      | d :: r3 =>
        if d == 'h' || d == 'v' then
          match dropLit "box (".toList r3 with
          | none => none
          | some r4 =>
            let amount : Option ((Option String × Option String) × List Char) :=
              match dropLit "badness ".toList r4 with
              | some r5 =>
                (match takeRun1 isDigitChar r5 with
                 | some (b, r6) => some ((some (String.mk b), none), r6)
                 | none => none)
              | none =>
                match takeRun1 isDigitChar r4 with
                | none => none
                | some (ip, r5) =>
                  let afterNum : Option (List Char × List Char) :=
                    match r5 with
                    | '.' :: r6 =>
                      (match takeRun1 isDigitChar r6 with
                       | some (fp, r7) => some (ip ++ '.' :: fp, r7)
                       | none => none)
                    | _ => some (ip, r5)
                  match afterNum with
                  | none => none
                  | some (num, r6) =>
                    match dropLit "pt".toList r6 with
                    | none => none
                    | some r7 =>
                      match dropLit " too ".toList r7 with
                      | none => none
                      | some r8 =>
                        match takeRun1 isWordChar r8 with
                        | some (_, r9) => some ((none, some (String.mk (num ++ "pt".toList))), r9)
                        | none => none
            match amount with
            | none => none
            | some ((bad, overBy), r5) =>
              match dropLit ") ".toList r5 with
              | none => none
              | some r6 =>
                match matchBadboxLocation r6 with
                | none => none
                | some ((sl, el, single), rest) =>
                  some ({ boxType := ty, direction := String.mk [d],
                          badness := bad, overBy := overBy,
                          startLine := sl, endLine := el, singleLine := single }, rest)
        else none
      | [] => none

/-! ## Message construction (src/src/outparse/src/lib.rs) -/

/-- The key under which `process_generic` stores capture group 2, chosen by
the type tag (src/src/outparse/src/lib.rs lines 92-96). -/
def componentKey (typeTag : String) : String :=
  if typeTag = "Package" then "package"
  else if typeTag = "Class" then "class"
  else "component"

/-- `LogParser::process_generic` (lines 73-116): build the `MessageInfo` for
an `INFO`/`WARNING`/typed-`ERROR` match.  `full` is capture group 0, which
for these regexes spans the whole line (their trailing `(.*)` is greedy). -/
def processGeneric (full : String) (g : GenCaps) : MessageInfo :=
  let d := insertD [] "type" g.typeTag
  let d :=
    match g.component with
    | some name => insertD d (componentKey g.typeTag) name
    | none => d
  let d :=
    match g.extra with
    | some e => insertD d "extra" e
    | none => d
  let d := insertD d "message" g.message
  { full := full, details := d, context_lines := [] }

/-- `LogParser::process_badbox` (lines 124-185).  The Rust code calls
`.unwrap()` on capture group 4 when group 1 is `Over` and on group 3 when it
is `Under` (and on group 6 when group 5 is present); `none` here is the
resulting panic.  (The regex can produce `Over` together with a `badness`
amount — e.g. `Overfull \hbox (badness 5) detected at line 1` — so the
panic arm is genuinely reachable.) -/
def processBadbox (full : String) (b : BadboxCaps) : Option MessageInfo := do
  let d := insertD (insertD [] "type" b.boxType) "direction" b.direction
  let d ←
    if b.boxType = "Over" then b.overBy.map (insertD d "by")
    else if b.boxType = "Under" then b.badness.map (insertD d "by")
    else pure d
  let d ←
    match b.singleLine with
    | some l => pure (insertD d "line" l)
    | none =>
      match b.startLine with
      | some s => b.endLine.map (fun e => insertD (insertD d "start_line" s) "end_line" e)
      | none => pure d
  pure { full := full, details := d, context_lines := [] }

/-- `LogParser::process_error` (lines 193-212): the bare branch (capture
group 5 present) stores only the `message` detail; the typed branch goes
through `process_generic`. -/
def processError (full : String) : GenCaps ⊕ String → MessageInfo
  | .inr bare => { full := full, details := [("message", bare)], context_lines := [] }
  | .inl g => processGeneric full g

/-- `LogParser::parse_line` (lines 61-71): try `INFO`, then `BADBOX`, then
`WARNING`, then `ERROR`; the first match increments its counter and appends
its message; an unmatched line leaves the report unchanged.  `none` is a
panic inside `process_badbox`. -/
def parseLine (rep : BuildReport) (line : String) : Option BuildReport :=
  let cs := line.toList
  match matchInfoLine cs with
  | some g =>
    some { rep with info := rep.info + 1,
                    messages := rep.messages ++ [Message.info (processGeneric line g)] }
  | none =>
    match matchBadboxLine cs with
    | some (b, rest) =>
      let full := String.mk (cs.take (cs.length - rest.length))
      (processBadbox full b).map fun i =>
        { rep with badboxes := rep.badboxes + 1,
                   messages := rep.messages ++ [Message.badbox i] }
    | none =>
      match matchWarningLine cs with
      | some g =>
        some { rep with warnings := rep.warnings + 1,
                        messages := rep.messages ++ [Message.warning (processGeneric line g)] }
      | none =>
        match matchErrorLine cs with
        | some e =>
          some { rep with errors := rep.errors + 1,
                          messages := rep.messages ++ [Message.error (processError line e)] }
        | none => some rep

/-! ## The line loop `LogParser::parse` (src/src/outparse/src/lib.rs 230-262)

The parser state mirrors the fields of the `LogParser` struct (lines 40-47).
Rust's `last_message: Option<&'a mut Message>` is a mutable borrow into
`report.messages`; following the spec's design note it is embedded as an
index into the message sequence.  In the source this field is initialised to
`None` by `LogParser::new` (line 223) and is never assigned anywhere else;
likewise `collect_remaining` is initialised to `None` (line 225) and is only
ever decremented or cleared, never set to `Some`.

The reader is a `BufReader` over the remaining lines.  `next_line`
(lines 53-59) calls `read_line`, which at end of input returns `Ok(0)`
leaving the buffer empty, so `next_line` yields `Some("")` forever once the
stream is exhausted; it returns `None` only when `read_line` errors, and the
loop reacts to `None` with `continue` as well.  Lines are modelled without
their trailing terminator (none of the recognisers can consume a `'\n'`:
`.` and the character classes of the regexes exclude it). -/

structure ParserSt where
  reader : List String
  report : BuildReport
  lastMessage : Option Nat
  lineno : Nat
  collectRemaining : Option Nat
  context_lines : Nat
deriving DecidableEq

/-- `LogParser::new` (lines 219-228). -/
def ParserSt.new (reader : List String) (context_lines : Nat) : ParserSt :=
  { reader := reader, report := BuildReport.new, lastMessage := none,
    lineno := 0, collectRemaining := none, context_lines := context_lines }

/-- `LogParser::next_line` via `BufRead::read_line`: the next line while any
input remains, and the empty string (with the reader unchanged, `Ok(0)`)
once the input is exhausted. -/
def nextLineM : List String → String × List String
  | [] => ("", [])
  | l :: rest => (l, rest)

/-- Rust `str::trim_start_matches`: repeatedly strip the pattern from the
front (fuelled by the string length; the pattern is nonempty at the one call
site, `"(<component>) "`). -/
def trimStartRep (pat : List Char) : Nat → List Char → List Char
  | 0, cs => cs
  | fuel + 1, cs =>
    match dropLit pat cs with
    | some cs' => trimStartRep pat fuel cs'
    | none => cs

/-- Rust `str::trim_start`. -/
def trimStartWs (cs : List Char) : List Char := cs.dropWhile Char.isWhitespace

/-- Apply `f` to the message at index `idx` of the report (re-resolving the
`last_message` borrow, per the spec's design note). -/
def mapMessageAt (rep : BuildReport) (idx : Nat) (f : Message → Message) : BuildReport :=
  { rep with messages := rep.messages.set idx (f (rep.messages.getD idx (Message.info ⟨"", [], []⟩))) }

/-- One iteration of the `loop` body of `LogParser::parse` (lines 231-261):
read a line, try the continuation branch, then the context-collection
branch, then `parse_line`.  Every path of the body ends in `continue` — the
loop contains no `break` or `return`.  `none` is a panic (from
`process_badbox`, or from the `usize` underflow of `*i -= 1` when
`collect_remaining` is `Some(0)`). -/
def parseIter (s : ParserSt) : Option ParserSt :=
  let (line, reader') := nextLineM s.reader
  let continuation : Option (ParserSt) :=
    match s.lastMessage with
    | none => none
    | some idx =>
      match (s.report.messages.getD idx (Message.info ⟨"", [], []⟩)).componentName with
      | none => none
      | some cmpt =>
        let pat := ("(" ++ cmpt ++ ") ").toList
        match dropLit pat line.toList with
        | none => none
        | some _ =>
          let msg := String.mk (trimStartWs (trimStartRep pat line.toList.length line.toList))
          some { s with reader := reader',
                        report := mapMessageAt s.report idx (fun m => m.extendMessage msg) }
  match continuation with
  | some s' => some s'
  | none =>
    match s.collectRemaining with
    | some i =>
      match i with
      | 0 => none
      | i' + 1 =>
        let report' :=
          match s.lastMessage with
          | some idx => mapMessageAt s.report idx (fun m => m.addContext line)
          | none => s.report
        some { s with reader := reader', report := report',
                      collectRemaining := if i' = 0 then none else some i' }
    | none =>
      (parseLine s.report line).map fun rep' =>
        { s with reader := reader', report := rep' }

/-- Possible observations of the `parse` loop after a bounded number of
iterations. -/
inductive ParseOut where
  | finished (r : BuildReport)
  | running (s : ParserSt)
  | panicked
deriving DecidableEq

/-- `LogParser::parse` run for `fuel` iterations.  A `finished` outcome
would require an iteration to leave the loop; the body has no such path. -/
def parseRun : Nat → ParserSt → ParseOut
  | 0, s => .running s
  | fuel + 1, s =>
    match parseIter s with
    | some s' => parseRun fuel s'
    | none => .panicked

/-- `parse_log` (src/src/outparse/src/lib.rs 266-276): builds a fresh
`BuildReport` and a `LogParser` borrowing it, but never invokes the parser
(the `parser` binding is unused), and returns the report as constructed. -/
def parseLog (_log : List String) : BuildReport :=
  BuildReport.new

/-! ## Jobs (src/src/jobs.rs)

A `Job` owns one external process.  The `config` and `command` fields only
matter through the OS, so the OS side of one `poll` call is supplied as an
oracle (`PollEnv`): the outcome `Command::spawn` would produce, the outcome
`Child::try_wait` would produce, the captured stdout lines, and the outcome
of the re-spawn inside `check_build_log`.  The `child : Option<Child>`
handle is embedded as `Option Bool`, the `Bool` recording whether the
child's stdout pipe is still available (`child.stdout.take()` in
`Job::stdout` removes it). -/

/-- `JobStatus` from src/src/jobs.rs (the `NeedsRebuild` variant is declared
in the source but never assigned by any transition). -/
inductive JobStatus where
  | pending
  | active
  | success
  | failed
  | needsRebuild
deriving DecidableEq

/-- The fields of `Job` that the scheduling logic reads or writes. -/
structure Job where
  jobname : String
  child : Option Bool
  run_count : Nat
  report : Option BuildReport
  status : JobStatus
deriving DecidableEq

/-- What the OS would answer to `Child::try_wait` on this call. -/
inductive WaitOutcome where
  | exited (exitSuccess : Bool)
  | stillRunning
  | waitErr
deriving DecidableEq

/-- What the OS would answer to `Command::spawn` on this call. -/
inductive SpawnOutcome where
  | ok
  | err
deriving DecidableEq

/-- The OS side of a single `Job::poll` call. -/
structure PollEnv where
  spawnRes : SpawnOutcome
  wait : WaitOutcome
  log : List String
  respawnRes : SpawnOutcome
deriving DecidableEq

/-- Result of a `poll` call; `panicked` covers the `.unwrap()` on the taken
stdout and the `.expect` on the re-spawn inside `check_build_log`. -/
inductive PollRes where
  | ret (b : Bool) (j : Job)
  | panicked
deriving DecidableEq

/-- `Job::spawn` (lines 127-132): set the child handle (fresh stdout),
become `Active`, bump `run_count`; on failure the `?` returns before any
field is written. -/
def Job.spawn (j : Job) (res : SpawnOutcome) : Option Job :=
  match res with
  | .err => none
  | .ok => some { j with child := some true, status := .active, run_count := j.run_count + 1 }

/-- `Job::check_build_log` (lines 80-95): take the captured stdout (panic if
already taken), parse it with `parse_log`, store the report; `Failed` on
parsed errors or an unsuccessful exit, re-spawn (once, when
`run_count == 1`) on missing references, otherwise `Success`. -/
def Job.checkBuildLog (j : Job) (exitCodeSuccess : Bool) (env : PollEnv) : PollRes :=
  match j.child with
  | none => .panicked
  | some stdoutAvail =>
    if !stdoutAvail then .panicked
    else
      let rep := parseLog env.log
      let j1 := { j with child := some false, report := some rep }
      if rep.errors > 0 || !exitCodeSuccess then
        .ret true { j1 with status := .failed }
      else if rep.missing_references > 0 && j1.run_count = 1 then
        match j1.spawn env.respawnRes with
        | none => .panicked
        | some j2 => .ret false j2
      else
        .ret true { j1 with status := .success }

/-- `Job::poll_pending` (lines 120-125): spawn; on `Err`, set `Failed`; the
function returns `false` on both paths. -/
def Job.pollPending (j : Job) (env : PollEnv) : PollRes :=
  match j.spawn env.spawnRes with
  | none => .ret false { j with status := .failed }
  | some j' => .ret false j'

/-- `Job::poll_active` (lines 105-118): non-blocking `try_wait`; `Ok(Some)`
goes through `check_build_log`, `Ok(None)` returns `false`, and the `Err`
arm sets `Failed` and returns `false`. -/
def Job.pollActive (j : Job) (env : PollEnv) : PollRes :=
  match j.child with
  | none => .ret false j
  | some _ =>
    match env.wait with
    | .exited ok => j.checkBuildLog ok env
    | .stillRunning => .ret false j
    | .waitErr => .ret false { j with status := .failed }

/-- `Job::poll` (lines 97-103): dispatch on the status; any status other
than `Pending` or `Active` answers `false` with the job untouched. -/
def Job.poll (j : Job) (env : PollEnv) : PollRes :=
  match j.status with
  | .pending => j.pollPending env
  | .active => j.pollActive env
  | _ => .ret false j

/-! ## `Job::cleanup` (src/src/jobs.rs 148-167) -/

/-- One entry of the scanned directory: its file name, and whether the
`fs::remove_file` call on it would fail. -/
structure DirEntry where
  fileName : String
  removeFails : Bool
deriving DecidableEq

/-- Rust `Path::extension` applied to a plain file name: the portion after
the final `.`, or `None` when there is no `.` or the only `.` is leading. -/
def rustExtension (name : String) : Option String :=
  let rev := name.toList.reverse
  let afterRev := rev.takeWhile (fun c => c ≠ '.')
  if afterRev.length = rev.length then none
  else
    let before := (rev.drop (afterRev.length + 1)).reverse
    if before = [] then none
    else some (String.mk afterRev.reverse)

/-- Observable outcome of `Job::cleanup`: normal return, a filesystem error
propagated by `?` (only the `read_dir` and `remove_file` calls carry `?`),
or the panic of `f.extension().unwrap()` on an entry without an extension. -/
inductive CleanupOut where
  | ok
  | fsErr
  | panicked
deriving DecidableEq

/-- The entry loop of `Job::cleanup` (lines 154-164): entries whose file
name starts with the job name must have an extension (`.unwrap()`), entries
with extension `tex` or `pdf` are kept, every other matching entry is
removed (propagating a removal failure). -/
def cleanupLoop (jobname : String) : List DirEntry → CleanupOut
  | [] => .ok
  | e :: rest =>
    match dropLit jobname.toList e.fileName.toList with
    | none => cleanupLoop jobname rest
    | some _ =>
      match rustExtension e.fileName with
      | none => .panicked
      | some ext =>
        if ext = "tex" || ext = "pdf" then cleanupLoop jobname rest
        else if e.removeFails then .fsErr
        else cleanupLoop jobname rest

/-- `Job::cleanup`: read the build directory (current directory when none is
configured) and run the entry loop.  `readDirOk` is the outcome of the
`read_dir` call; mutation of the directory by successful removals is not
observable by the remaining iterations of the same scan (`read_dir` is
called once). -/
def Job.cleanup (j : Job) (readDirOk : Bool) (entries : List DirEntry) : CleanupOut :=
  if !readDirOk then .fsErr
  else cleanupLoop j.jobname entries

/-! ## The Runner (src/src/runner.rs, src/src/report.rs)

`Runner::submit` pushes each constructed `Job` directly onto the `active`
queue (`self.active.push_back(job)`, line 71); the `Runner` struct has no
pending queue and `Config` (src/src/config.rs) has no concurrency field.
`Runner::process_submissions` (lines 75-93) repeatedly pops the front of
`active`, checks the shared abort flag, polls the job, and either retires it
to `completed` (poll returned `true`) or pushes it back (`false`); when
`active` is empty it runs `do_cleanup` and `build_report`.

The OS behaviour of each job across the whole run is scripted in a `JobEnv`
carried next to the job: one `WaitOutcome` is consumed every time a poll
actually reaches `Child::try_wait` (status `Active` with a live child). -/

/-- Scripted OS behaviour for one job over a whole run. -/
structure JobEnv where
  spawnRes : SpawnOutcome
  waits : List WaitOutcome
  log : List String
  respawnRes : SpawnOutcome
deriving DecidableEq

/-- One `Job::poll` against the job's script, consuming the head wait
outcome exactly when the poll consults `try_wait`. -/
def pollScripted (j : Job) (e : JobEnv) : PollRes × JobEnv :=
  let res := j.poll
    { spawnRes := e.spawnRes, wait := e.waits.headD .stillRunning,
      log := e.log, respawnRes := e.respawnRes }
  if j.status = .active && j.child.isSome then
    (res, { e with waits := e.waits.tail })
  else
    (res, e)

/-- `RunnerReport` from src/src/report.rs; `build_reports` is the
`ReportMap` (`HashMap<OsString, BuildReport>`), embedded as an association
list. -/
structure RunnerReport where
  num_files : Nat
  success : Nat
  fail : Nat
  build_reports : List (String × BuildReport)
deriving DecidableEq

/-- `RunnerReport::new`. -/
def RunnerReport.new : RunnerReport :=
  { num_files := 0, success := 0, fail := 0, build_reports := [] }

/-- The classification loop of `Runner::build_report` (lines 115-122): each
completed job's `jobname` is cloned into an unused binding, `Success` and
`Failed` bump the two counters, and any other status aborts with
`"Job was not completed."`; nothing is ever inserted into `build_reports`. -/
def buildReportLoop : List Job → RunnerReport → Except String RunnerReport
  | [], r => .ok r
  | j :: rest, r =>
    match j.status with
    | .success => buildReportLoop rest { r with success := r.success + 1 }
    | .failed => buildReportLoop rest { r with fail := r.fail + 1 }
    | _ => .error "Job was not completed."

/-- `Runner::build_report` (lines 111-124). -/
def runnerBuildReport (completed : List Job) : Except String RunnerReport :=
  buildReportLoop completed { RunnerReport.new with num_files := completed.length }

/-- The per-job loop of `Runner::do_cleanup` (lines 105-107): `job.cleanup()?`
propagates the first failure; a panic aborts everything. -/
def doCleanupLoop (readDirOk : Bool) (entries : List DirEntry) : List Job → CleanupOut
  | [] => .ok
  | j :: rest =>
    match j.cleanup readDirOk entries with
    | .ok => doCleanupLoop readDirOk entries rest
    | .fsErr => .fsErr
    | .panicked => .panicked

/-- State of a `Runner` mid-drain, together with the filesystem oracle the
optional cleanup pass would see.  (Removals performed by one job's cleanup
are not reflected in the listing the next job scans; no theorem below
exercises `cleanBuild = true`.) -/
structure RunnerState where
  abortFlag : Bool
  cleanBuild : Bool
  readDirOk : Bool
  dirEntries : List DirEntry
  active : List (Job × JobEnv)
  completed : List Job
deriving DecidableEq

/-- `Runner::do_cleanup` (lines 101-109). -/
def RunnerState.doCleanup (s : RunnerState) : CleanupOut :=
  if !s.cleanBuild then .ok
  else doCleanupLoop s.readDirOk s.dirEntries s.completed

deriving instance DecidableEq for Except

/-- Observable outcome of `Runner::process_submissions`: a normal return
(`Ok` report or propagated error), the `std::process::exit(1)` inside
`Runner::kill` (carrying the jobs that were sent a kill signal, in order:
the popped job first, then the remaining active window), a panic, or fuel
exhaustion (the loop still running). -/
inductive RunOut where
  | finished (r : Except String RunnerReport)
  | exitProc (code : Nat) (killed : List Job)
  | fuelOut
  | panicked
deriving DecidableEq

/-- `Runner::process_submissions` (lines 75-93) run for at most `fuel`
iterations of the `while let` loop.  On observing the abort flag the code
runs `job.kill()` on the popped job, then `Runner::kill` (lines 95-99):
kill every job still in `active`, notify the reporter, and
`std::process::exit(1)`. -/
def drainRun : Nat → RunnerState → RunOut
  | 0, _ => .fuelOut
  | fuel + 1, s =>
    match s.active with
    | [] =>
      (match s.doCleanup with
       | .panicked => .panicked
       | .fsErr => .finished (.error "cleanup failed")
       | .ok => .finished (runnerBuildReport s.completed))
    | (j, e) :: rest =>
      if s.abortFlag then
        .exitProc 1 (j :: rest.map Prod.fst)
      else
        match pollScripted j e with
        | (.panicked, _) => .panicked
        | (.ret true j', _) =>
          drainRun fuel { s with active := rest, completed := s.completed ++ [j'] }
        | (.ret false j', e') =>
          drainRun fuel { s with active := rest ++ [(j', e')] }

/-- The state of the drain loop after exactly `n` iterations, `none` when
the loop stopped (normally, by `exit`, or by panic) strictly earlier. -/
def drainSteps : Nat → RunnerState → Option RunnerState
  | 0, s => some s
  | n + 1, s =>
    match s.active with
    | [] => none
    | (j, e) :: rest =>
      if s.abortFlag then none
      else
        match pollScripted j e with
        | (.panicked, _) => none
        | (.ret true j', _) =>
          drainSteps n { s with active := rest, completed := s.completed ++ [j'] }
        | (.ret false j', e') =>
          drainSteps n { s with active := rest ++ [(j', e')] }

/-- All jobs a runner state holds, active window first. -/
def RunnerState.allJobs (s : RunnerState) : List Job :=
  s.active.map Prod.fst ++ s.completed

/-- The number of jobs currently in `Active` status, wherever they are
held. -/
def RunnerState.countActive (s : RunnerState) : Nat :=
  (s.allJobs.filter (fun j => j.status = .active)).length

/-- Total number of jobs held by the runner. -/
def RunnerState.totalJobs (s : RunnerState) : Nat :=
  s.active.length + s.completed.length

/-! ## Concrete fixtures used by the theorems -/

/-- A freshly submitted job (every `Job::new` starts `Pending` with no child
and `run_count == 0`). -/
def jobPendingA : Job :=
  { jobname := "a", child := none, run_count := 0, report := none, status := .pending }

/-- A second freshly submitted job. -/
def jobPendingB : Job :=
  { jobname := "b", child := none, run_count := 0, report := none, status := .pending }

/-- `jobPendingA` after a successful first spawn. -/
def jobActiveA : Job :=
  { jobname := "a", child := some true, run_count := 1, report := none, status := .active }

/-- `jobPendingB` after a successful first spawn. -/
def jobActiveB : Job :=
  { jobname := "b", child := some true, run_count := 1, report := none, status := .active }

/-- A job that already completed successfully, carrying its final report. -/
def jobDone : Job :=
  { jobname := "test", child := some false, run_count := 1,
    report := some BuildReport.new, status := .success }

/-- Poll-call oracle: the spawn attempt fails. -/
def envSpawnErr : PollEnv :=
  { spawnRes := .err, wait := .stillRunning, log := [], respawnRes := .ok }

/-- Poll-call oracle: `try_wait` reports an error. -/
def envWaitErr : PollEnv :=
  { spawnRes := .ok, wait := .waitErr, log := [], respawnRes := .ok }

/-- Poll-call oracle: the process exited successfully. -/
def envExitOk : PollEnv :=
  { spawnRes := .ok, wait := .exited true, log := ["! Undefined control sequence."],
    respawnRes := .ok }

/-- Run-long oracle script: spawn succeeds, the process is still running on
the first two checks and then exits successfully. -/
def envSlow : JobEnv :=
  { spawnRes := .ok, waits := [.stillRunning, .stillRunning, .exited true],
    log := [], respawnRes := .ok }

/-- Runner about to drain two freshly submitted jobs (no cancellation,
`clean_build` off). -/
def twoJobState : RunnerState :=
  { abortFlag := false, cleanBuild := false, readDirOk := true, dirEntries := [],
    active := [(jobPendingA, envSlow), (jobPendingB, envSlow)], completed := [] }

/-- `twoJobState` after two loop iterations: both jobs have been spawned and
pushed back, and both are in `Active` status simultaneously. -/
def twoJobStateAfter2 : RunnerState :=
  { abortFlag := false, cleanBuild := false, readDirOk := true, dirEntries := [],
    active := [(jobActiveA, envSlow), (jobActiveB, envSlow)], completed := [] }

/-- Runner observed mid-run with the cancellation flag already set: one job
has completed, one is still active. -/
def abortState : RunnerState :=
  { abortFlag := true, cleanBuild := false, readDirOk := true, dirEntries := [],
    active := [(jobActiveA, envSlow)], completed := [jobDone] }

/-- Discriminator: did `process_submissions` return normally (as opposed to
exiting the process, panicking, or running out of fuel)? -/
def RunOut.isFinished : RunOut → Bool
  | .finished _ => true
  | _ => false

/-- The underfull-badbox test line of the specification. -/
def lineUnderfull : String :=
  "Underfull \\vbox (badness 1234) has occurred while \\output is active []"

/-- The overfull-badbox test line of the specification. -/
def lineOverfull : String :=
  "Overfull \\hbox (54.95697pt too wide) in paragraph at lines 397--397"

/-- Details produced for `lineUnderfull`. -/
def underfullDetails : Details :=
  [("type", "Under"), ("direction", "v"), ("by", "1234")]

/-- Details produced for `lineOverfull`. -/
def overfullDetails : Details :=
  [("type", "Over"), ("direction", "h"), ("by", "54.95697pt"),
   ("start_line", "397"), ("end_line", "397")]

/-- The bare-error test line of the specification. -/
def lineBareError : String := "! Undefined control sequence."

/-- The typed package-error test line of the specification. -/
def lineBabelError : String :=
  "! Package babel Error: Unknown option `latin'. Either you misspelled it"

/-- The message captured from `lineBabelError`. -/
def babelMsg : String := "Unknown option `latin'. Either you misspelled it"

/-! ## Theorems for the claims -/

/-- C1: the claim says that running the public log parser `parse_log` on a
stream containing exactly one recognized diagnostic line returns a
`BuildReport` with exactly one counter incremented and one message appended.
In the source, `parse_log` constructs the `LogParser` but never invokes it
(the binding is unused) and returns the report exactly as `BuildReport::new`
produced it, so every counter is 0 and no message is appended — even though
the same line fed to `LogParser::parse_line` does produce `errors == 1` and
one message, showing the line is recognized. -/
theorem parse_log_returns_empty_report :
    parseLog [lineBareError] = BuildReport.new ∧
    (parseLog [lineBareError]).errors = 0 ∧
    (parseLog [lineBareError]).messages = [] ∧
    (parseLine BuildReport.new lineBareError).map BuildReport.errors = some 1 ∧
    (parseLine BuildReport.new lineBareError).map (fun r => r.messages.length) = some 1 := by
  refine ⟨rfl, rfl, rfl, ?_, ?_⟩ <;> decide

/-- C2: the claim says `LogParser::parse` terminates once the stream is
exhausted and returns the completed report.  The loop body ends every path
in `continue` — there is no `break` or `return` — and at end of input
`read_line` keeps answering `Ok(0)` with an empty line, so the loop never
terminates: no number of iterations from any state produces a `finished`
outcome, and on an exhausted stream the state ceases to change at all. -/
theorem parse_loop_never_returns :
    (∀ (n : Nat) (s : ParserSt) (r : BuildReport), parseRun n s ≠ ParseOut.finished r) ∧
    parseRun 5 (ParserSt.new [] 2) = ParseOut.running (ParserSt.new [] 2) := by
  constructor
  · intro n
    induction n with
    | zero => intro s r h; simp [parseRun] at h
    | succ n ih =>
      intro s r h
      unfold parseRun at h
      cases hit : parseIter s with
      | none => rw [hit] at h; exact ParseOut.noConfusion h
      | some s' => rw [hit] at h; exact ih s' r h
  · decide

/-- C3: the claim says `poll` returns `true` exactly when the job reaches a
terminal status during the call; in particular spawn failure on a `Pending`
job and a `try_wait` error on an `Active` job should both mark the job
`Failed` and return `true`.  The code does mark the job `Failed` on both
paths but returns `false` (`poll_pending` lines 120-125 and the `Err` arm of
`poll_active` lines 113-117); only the completed-process path returns
`true`, and an already-terminal job returns `false` unchanged. -/
theorem poll_returns_false_despite_terminal_transition :
    Job.poll jobPendingA envSpawnErr = PollRes.ret false { jobPendingA with status := .failed } ∧
    Job.poll jobActiveA envWaitErr = PollRes.ret false { jobActiveA with status := .failed } ∧
    Job.poll jobDone envWaitErr = PollRes.ret false jobDone ∧
    Job.poll jobActiveA envExitOk = PollRes.ret true
      { jobname := "a", child := some false, run_count := 1,
        report := some BuildReport.new, status := .success } := by
  refine ⟨?_, ?_, ?_, ?_⟩ <;> decide

/-- Helper for C4: the drain loop neither creates nor destroys jobs while it
is still looping — each iteration moves the popped job either to the back of
the active queue or into `completed`. -/
theorem drainSteps_totalJobs_eq :
    ∀ (n : Nat) (s0 s : RunnerState), drainSteps n s0 = some s →
      s.totalJobs = s0.totalJobs := by
  intro n
  induction n with
  | zero =>
    intro s0 s h
    simp only [drainSteps, Option.some.injEq] at h
    rw [h]
  | succ n ih =>
    intro s0 s h
    unfold drainSteps at h
    cases hact : s0.active with
    | nil => rw [hact] at h; simp at h
    | cons je rest =>
      rw [hact] at h
      obtain ⟨j, e⟩ := je
      by_cases hab : s0.abortFlag = true
      · simp [hab] at h
      · simp only [hab, if_neg, Bool.false_eq_true, ite_false] at h
        rcases hres : pollScripted j e with ⟨res, e'⟩
        rw [hres] at h
        cases res with
        | panicked => simp at h
        | ret b j' =>
          cases b with
          | true =>
            have := ih _ _ h
            rw [this]
            simp [RunnerState.totalJobs, hact]
            omega
          | false =>
            have := ih _ _ h
            rw [this]
            simp [RunnerState.totalJobs, hact]

/-- C4 (amended): the Runner has no concurrency bound — `Config`
(src/src/config.rs) has no max-concurrency field and `Runner::submit` pushes
every job straight onto the active queue, where each is spawned on its first
poll — so the only bound on the number of simultaneously `Active` jobs is
the total number of jobs the runner holds, i.e. the number of submitted
paths. -/
theorem countActive_le_submitted :
    ∀ (n : Nat) (s0 s : RunnerState), drainSteps n s0 = some s →
      s.countActive ≤ s0.totalJobs := by
  intro n s0 s h
  have ht := drainSteps_totalJobs_eq n s0 s h
  have hc : s.countActive ≤ s.totalJobs := by
    unfold RunnerState.countActive RunnerState.totalJobs RunnerState.allJobs
    calc (List.filter (fun j => j.status = JobStatus.active)
            (s.active.map Prod.fst ++ s.completed)).length
        ≤ (s.active.map Prod.fst ++ s.completed).length := List.length_filter_le _ _
      _ = s.active.length + s.completed.length := by simp
  omega

/-- Witness for C4's amended theorem at a concrete run: two submitted jobs,
two loop iterations. -/
theorem countActive_le_submitted_witness :
    twoJobStateAfter2.countActive ≤ twoJobState.totalJobs :=
  countActive_le_submitted 2 twoJobState twoJobStateAfter2 (by decide)

/-- C4 (counterexample): with two submitted paths and slow processes, after
two iterations of the drain loop both jobs are in `Active` status
simultaneously — there is no window of capacity `N`: any purported bound
below the number of submitted paths (the spec's default is 1) is exceeded. -/
theorem two_jobs_active_simultaneously :
    drainSteps 2 twoJobState = some twoJobStateAfter2 ∧
    (drainSteps 2 twoJobState).map RunnerState.countActive = some 2 := by
  refine ⟨?_, ?_⟩ <;> decide

/-- C5 (amended): when the drain loop observes the cancellation flag it
kills the job it just popped and every job remaining in the active queue,
notifies the reporter, and terminates the whole process through
`std::process::exit(1)` (`Runner::kill`, lines 95-99): no `RunnerReport` is
produced at all, not even for the jobs that had already completed. -/
theorem abort_exits_process :
    ∀ (fuel : Nat) (s : RunnerState) (j : Job) (e : JobEnv) (rest : List (Job × JobEnv)),
      s.abortFlag = true → s.active = (j, e) :: rest →
      drainRun (fuel + 1) s = RunOut.exitProc 1 (j :: rest.map Prod.fst) := by
  intro fuel s j e rest hab hact
  unfold drainRun
  rw [hact]
  simp [hab]

/-- Witness for C5's amended theorem at a concrete aborted run. -/
theorem abort_exits_process_witness :
    drainRun 3 abortState = RunOut.exitProc 1 [jobActiveA] :=
  abort_exits_process 2 abortState jobActiveA envSlow [] rfl rfl

/-- C5 (counterexample): a run whose cancellation flag is set, with one
already-completed job and one active job, ends in `exit(1)` — the claim's
final `RunnerReport` containing the previously terminal `jobDone` is never
produced. -/
theorem abort_produces_no_report :
    drainRun 3 abortState = RunOut.exitProc 1 [jobActiveA] ∧
    (drainRun 3 abortState).isFinished = false ∧
    jobDone.status = JobStatus.success := by
  refine ⟨?_, ?_, ?_⟩ <;> decide

/-- C6: the claim says a line carrying the component-name prefix of the most
recent message is appended to that message's `message` detail.  In the
source, `last_message` is initialised to `None` by `LogParser::new` and
never assigned anywhere, so the continuation branch of the loop is dead:
after a `Package babel Warning` message, the line `"(babel) bar"` — which
starts with the recorded component prefix `"(babel) "` — increments no
counter (that half of the claim holds) but is silently discarded, leaving
the message detail at `"foo"` instead of extending it. -/
theorem continuation_line_is_discarded :
    parseRun 2 (ParserSt.new ["Package babel Warning: foo", "(babel) bar"] 2) =
      ParseOut.running
        { reader := [],
          report :=
            { errors := 0, warnings := 1, badboxes := 0, info := 0,
              messages := [Message.warning
                ⟨"Package babel Warning: foo",
                 [("type", "Package"), ("package", "babel"), ("message", "foo")], []⟩],
              missing_references := 0 },
          lastMessage := none, lineno := 0, collectRemaining := none,
          context_lines := 2 } ∧
    Message.componentName (Message.warning
      ⟨"Package babel Warning: foo",
       [("type", "Package"), ("package", "babel"), ("message", "foo")], []⟩) = some "babel" ∧
    (dropLit "(babel) ".toList "(babel) bar".toList).isSome = true := by
  refine ⟨?_, ?_, ?_⟩ <;> decide

/-- C7 (counterexample): for the overfull line, capture group 4 of the
`BADBOX` regex is `(\d+(?:\.\d+)?pt)` — it captures only the size with its
unit, excluding the following ` too wide` — so the stored `by` detail is
`"54.95697pt"`, not `"54.95697pt too wide"` as the claim states. -/
theorem overfull_by_excludes_too_wide :
    parseLine BuildReport.new lineOverfull =
      some { BuildReport.new with
             badboxes := 1,
             messages := [Message.badbox ⟨lineOverfull, overfullDetails, []⟩] } ∧
    lookupD overfullDetails "by" = some "54.95697pt" ∧
    lookupD overfullDetails "by" ≠ some "54.95697pt too wide" := by
  refine ⟨?_, ?_, ?_⟩ <;> decide

/-- C7 (amended): parsing the underfull line yields `badboxes = 1` with
details `direction = "v"`, `by = "1234"` and no line-location keys; parsing
the overfull line yields `badboxes = 1` with details `direction = "h"`,
`by = "54.95697pt"` (the captured size-with-unit string),
`start_line = "397"`, `end_line = "397"`. -/
theorem badbox_details_values :
    parseLine BuildReport.new lineUnderfull =
      some { BuildReport.new with
             badboxes := 1,
             messages := [Message.badbox ⟨lineUnderfull, underfullDetails, []⟩] } ∧
    lookupD underfullDetails "direction" = some "v" ∧
    lookupD underfullDetails "by" = some "1234" ∧
    containsD underfullDetails "line" = false ∧
    containsD underfullDetails "start_line" = false ∧
    containsD underfullDetails "end_line" = false ∧
    parseLine BuildReport.new lineOverfull =
      some { BuildReport.new with
             badboxes := 1,
             messages := [Message.badbox ⟨lineOverfull, overfullDetails, []⟩] } ∧
    lookupD overfullDetails "direction" = some "h" ∧
    lookupD overfullDetails "by" = some "54.95697pt" ∧
    lookupD overfullDetails "start_line" = some "397" ∧
    lookupD overfullDetails "end_line" = some "397" := by
  refine ⟨?_, ?_, ?_, ?_, ?_, ?_, ?_, ?_, ?_, ?_, ?_⟩ <;> decide

/-- C8: the bare error line stores exactly one detail,
`message = "Undefined control sequence."`, with `errors = 1`; the typed
package error line stores `package = "babel"` with a `message` detail that
begins with `"Unknown option"`, with `errors = 1`. -/
theorem error_line_details :
    parseLine BuildReport.new lineBareError =
      some { BuildReport.new with
             errors := 1,
             messages := [Message.error
               ⟨lineBareError, [("message", "Undefined control sequence.")], []⟩] } ∧
    parseLine BuildReport.new lineBabelError =
      some { BuildReport.new with
             errors := 1,
             messages := [Message.error
               ⟨lineBabelError,
                [("type", "Package"), ("package", "babel"), ("message", babelMsg)], []⟩] } ∧
    (dropLit "Unknown option".toList babelMsg.toList).isSome = true := by
  refine ⟨?_, ?_, ?_⟩ <;> decide

/-- C9: the claim says the `RunnerReport` maps every completed job's name to
its final `BuildReport`.  `Runner::build_report` clones each `jobname` into
an unused binding and never inserts anything into `build_reports`: for a
completed, successful job that does carry a final report, the returned map
is empty. -/
theorem build_reports_map_left_empty :
    runnerBuildReport [jobDone] =
      Except.ok { num_files := 1, success := 1, fail := 0, build_reports := [] } ∧
    jobDone.report = some BuildReport.new ∧
    jobDone.jobname = "test" ∧
    List.lookup "test"
      (RunnerReport.build_reports
        { num_files := 1, success := 1, fail := 0, build_reports := [] }) = none := by
  refine ⟨?_, ?_, ?_, ?_⟩ <;> decide

/-- C10: on a directory entry whose file name starts with the job's name but
has no extension, `Job::cleanup` panics through `f.extension().unwrap()`
rather than deleting it or returning an error; `?`-propagation of
filesystem errors covers only the `read_dir` call and the `remove_file`
call (entries kept by the `tex`/`pdf` exemption or not matching the job
name never reach `remove_file`, so their removal can never fail). -/
theorem cleanup_panics_without_extension :
    Job.cleanup jobDone true [⟨"test", false⟩] = CleanupOut.panicked ∧
    rustExtension "test" = none ∧
    (dropLit "test".toList "test".toList).isSome = true ∧
    Job.cleanup jobDone false [] = CleanupOut.fsErr ∧
    Job.cleanup jobDone true [⟨"test.aux", true⟩] = CleanupOut.fsErr ∧
    Job.cleanup jobDone true
      [⟨"test.aux", false⟩, ⟨"test.tex", true⟩, ⟨"other.log", true⟩] = CleanupOut.ok := by
  refine ⟨?_, ?_, ?_, ?_, ?_, ?_⟩ <;> decide

end Rustex
